import Mathlib

/-!
Verification of the SentinelForge event-to-action pipeline
(backend/app: falco_processor, ml_service, rl_service, remediation_service,
storage, api/threats, main.falco_webhook).

Shallow embedding conventions:
* Python floats are modelled as exact rationals (all constants in the code are
  short decimals, and every comparison proved here is robust to rounding).
* The in-memory storage backing is modelled (the `USE_DATABASE` flag is unset
  when `DATABASE_URL` is absent; the durable branch degrades to the same
  in-memory lists on any failure).
* Envelopes are modelled as mappings with optional string fields, matching the
  detector's JSON envelope type.  `process_event` catches every exception and
  returns `None`; for string-typed mapping envelopes no modelled statement can
  raise, so the embedded `process_event` always returns `some`.
* The trained isolation-forest model and the Kubernetes orchestrator are
  external collaborators; they enter as oracle parameters whose outcomes
  (unavailable / ok / raised exception) drive the branches the code takes.
-/

namespace SentinelForge

/-- models/threat_event.py: ThreatSeverity (str enum low/medium/high/critical). -/
inductive ThreatSeverity
  | low
  | medium
  | high
  | critical
  deriving DecidableEq, Repr

/-- models/threat_event.py: ThreatType (str enum, eight values). -/
inductive ThreatType
  | reverse_shell
  | privilege_escalation
  | unauthorized_access
  | malicious_process
  | network_anomaly
  | file_anomaly
  | container_escape
  | unknown
  deriving DecidableEq, Repr

/-- models/remediation_action.py: ActionType (str enum, eight values). -/
inductive ActionType
  | monitor
  | log
  | alert
  | isolate_pod
  | terminate_pod
  | block_network
  | terminate_process
  | escalate
  deriving DecidableEq, Repr

/-- models/remediation_action.py: RiskLevel (str enum low/medium/high). -/
inductive RiskLevel
  | low
  | medium
  | high
  deriving DecidableEq, Repr

/-- models/threat_event.py: ThreatEvent.  Identifiers and instants are opaque
naturals; `raw_event` (an opaque copy of the input mapping) and the pydantic
json config are omitted since nothing reads them back. -/
structure ThreatEvent where
  id : Nat
  detected_at : Nat
  severity : ThreatSeverity
  threat_type : ThreatType
  source_pod : Option String
  source_namespace : Option String
  source_container : Option String
  source_user : Option String
  description : String
  falco_output : String
  falco_rule : Option String
  falco_priority : Option String
  ml_score : Option ℚ
  confidence : ℚ
  resolved : Bool
  resolved_at : Option Nat
  deriving DecidableEq, Repr

/-- models/remediation_action.py: RemediationAction.  `parameters`,
`confirmed_by`, `confirmed_at` are omitted: no modelled code path writes or
reads them. -/
structure RemediationAction where
  id : Nat
  threat_id : Nat
  action_type : ActionType
  risk_level : RiskLevel
  confidence : ℚ
  ml_score : Option ℚ
  executed : Bool
  executed_at : Option Nat
  success : Option Bool
  error_message : Option String
  requires_confirmation : Bool
  deriving DecidableEq, Repr

/-- The detector's JSON envelope: a mapping whose relevant fields are strings
(`output`, `priority`, `rule`) and a string-to-string mapping
(`output_fields`); each may be absent. -/
structure FalcoEvent where
  output : Option String
  priority : Option String
  rule : Option String
  output_fields : Option (List (String × String))
  deriving DecidableEq, Repr

/-- Python dict.get k: the binding for k, or none. -/
def dictGet (d : List (String × String)) (k : String) : Option String :=
  (d.find? (fun p => p.1 = k)).map Prod.snd

/-- Python dict.get k default. -/
def dictGetD (d : List (String × String)) (k : String) (v : String) : String :=
  (dictGet d k).getD v

/-- Python `a or b` where a is an optional string: None and "" are falsy. -/
def pyOr (a b : Option String) : Option String :=
  match a with
  | some s => if s = "" then b else some s
  | none => b

/-- Python `a or b` where a is an optional string and b a string. -/
def pyOrD (a : Option String) (b : String) : String :=
  match a with
  | some s => if s = "" then b else s
  | none => b

/-- falco_processor.py PRIORITY_TO_SEVERITY, read with default LOW
(`self.PRIORITY_TO_SEVERITY.get(priority, ThreatSeverity.LOW)`). -/
def priorityToSeverity (p : String) : ThreatSeverity :=
  if p = "Emergency" then .critical
  else if p = "Alert" then .high
  else if p = "Critical" then .high
  else if p = "Error" then .medium
  else if p = "Warning" then .medium
  else if p = "Notice" then .low
  else if p = "Informational" then .low
  else if p = "Debug" then .low
  else .low

/-- Python str.lower on one character, restricted to ASCII (keywords and the
envelope text the pipeline lowers are ASCII). -/
def lowerChar (c : Char) : Char :=
  if 'A' ≤ c ∧ c ≤ 'Z' then Char.ofNat (c.toNat + 32) else c

/-- Python str.lower (ASCII). -/
def strLower (s : String) : String := ⟨s.data.map lowerChar⟩

/-- Python s[:n] on strings (counts code points, as Python does). -/
def strTake (s : String) (n : Nat) : String := ⟨s.data.take n⟩

/-- Substring test on char lists (Python `keyword in combined`), structural on
the haystack. -/
def charsContain (hay needle : List Char) : Bool :=
  match hay with
  | [] => needle.isPrefixOf ([] : List Char)
  | _ :: rest => needle.isPrefixOf hay || charsContain rest needle

/-- Python `needle in hay` on strings. -/
def strContains (hay needle : String) : Bool :=
  charsContain hay.toList needle.toList

/-- falco_processor.py THREAT_KEYWORDS, in declaration order (Python dicts
iterate in insertion order). -/
def THREAT_KEYWORDS : List (ThreatType × List String) :=
  [ (.reverse_shell, ["reverse shell", "nc ", "netcat", "bash -i", "/bin/sh", "shell"]),
    (.privilege_escalation, ["sudo", "su ", "setuid", "setgid", "capabilities"]),
    (.unauthorized_access, ["unauthorized", "forbidden", "access denied"]),
    (.malicious_process, ["malware", "virus", "trojan", "backdoor"]),
    (.network_anomaly, ["port scan", "brute force", "ddos"]),
    (.file_anomaly, ["sensitive file", "password", "secret", "credential"]),
    (.container_escape, ["container escape", "host mount", "privileged"]) ]

/-- The loop body of FalcoProcessor._detect_threat_type: first entry whose
keyword list has a member contained in the combined text wins. -/
def firstKeywordMatch (combined : String) : List (ThreatType × List String) → ThreatType
  | [] => .unknown
  | (ty, kws) :: rest =>
    if kws.any (fun kw => strContains combined kw) then ty
    else firstKeywordMatch combined rest

/-- FalcoProcessor._detect_threat_type(output, rule):
`combined = f"(output) (rule)"`, scanned against THREAT_KEYWORDS in order,
UNKNOWN when nothing matches.  The caller passes both strings lowered. -/
def detectThreatType (output rule : String) : ThreatType :=
  firstKeywordMatch (output ++ " " ++ rule) THREAT_KEYWORDS

/-- Message sent by manager.broadcast from process_event. -/
structure BroadcastMsg where
  msgType : String
  threat_id : Nat
  severity : ThreatSeverity
  threat_type : ThreatType
  pod : Option String
  description : String
  deriving DecidableEq, Repr

/-- The shared mutable state the pipeline touches: storage.py's in-memory
`_threats_db` and `_actions_db`, plus the log of messages handed to the
broadcast hub (stream.py manager.broadcast). -/
structure PipelineState where
  threats : List ThreatEvent
  actions : List RemediationAction
  broadcasts : List BroadcastMsg
  deriving DecidableEq, Repr

def initialState : PipelineState := ⟨[], [], []⟩

/-- storage.py add_threat, in-memory backing: `_threats_db.append(threat)`. -/
def add_threat (t : ThreatEvent) (db : List ThreatEvent) : List ThreatEvent :=
  db ++ [t]

/-- storage.py add_action, in-memory backing: `_actions_db.append(action)`. -/
def add_action (a : RemediationAction) (db : List RemediationAction) :
    List RemediationAction :=
  db ++ [a]

/-- storage.py get_threats_db, in-memory backing: returns the list itself. -/
def get_threats_db (db : List ThreatEvent) : List ThreatEvent := db

/-- The field extraction and ThreatEvent construction inside
FalcoProcessor.process_event (everything before `threats_db.append`). -/
def buildThreat (event : FalcoEvent) (freshId : Nat) (now : Nat) : ThreatEvent :=
  let output := event.output.getD ""
  let priority := event.priority.getD "Informational"
  let rule := event.rule.getD "Unknown"
  let fields := event.output_fields.getD []
  let severity := priorityToSeverity priority
  let ttype := detectThreatType (strLower output) (strLower rule)
  -- the source repeats the same key twice in the first lookup
  let pod_name := pyOr (dictGet fields "k8s.pod.name") (dictGet fields "k8s.pod.name")
  let nsName := pyOrD (dictGet fields "k8s.ns.name") (dictGetD fields "k8s.namespace.name" "default")
  let container := pyOr (dictGet fields "container.name") (dictGet fields "k8s.container.name")
  let user := pyOr (dictGet fields "user.name") (dictGet fields "proc.user")
  { id := freshId
    detected_at := now
    severity := severity
    threat_type := ttype
    source_pod := pod_name
    source_namespace := some nsName
    source_container := container
    source_user := user
    description := strTake output 500
    falco_output := output
    falco_rule := some rule
    falco_priority := some priority
    ml_score := none
    confidence := 7/10
    resolved := false
    resolved_at := none }

/-- The payload handed to manager.broadcast inside process_event. -/
def buildBroadcast (threat : ThreatEvent) : BroadcastMsg :=
  { msgType := "threat_detected"
    threat_id := threat.id
    severity := threat.severity
    threat_type := threat.threat_type
    pod := threat.source_pod
    description := strTake threat.description 100 }

/-- FalcoProcessor.process_event.  Returns the created threat and the state
after `threats_db.append` and `manager.broadcast`.  The enclosing
`try/except` returns None only when a statement raises; with string-typed
mapping envelopes none of the modelled statements can raise, so the result is
always `some`. -/
def process_event (event : FalcoEvent) (freshId : Nat) (now : Nat)
    (st : PipelineState) : Option ThreatEvent × PipelineState :=
  let threat := buildThreat event freshId now
  (some threat,
    { st with
        threats := add_threat threat st.threats
        broadcasts := st.broadcasts ++ [buildBroadcast threat] })

/-- api/threats.py resolve_threat, in-memory path: walk the store, mutate the
first record with the id in place (resolved, resolved_at), then call
add_threat on that same record.  Returns none on 404. -/
def resolveFirst (tid : Nat) (now : Nat) :
    List ThreatEvent → Option (ThreatEvent × List ThreatEvent)
  | [] => none
  | t :: rest =>
    if t.id = tid then
      let t2 := { t with resolved := true, resolved_at := some now }
      some (t2, t2 :: rest)
    else
      match resolveFirst tid now rest with
      | none => none
      | some (t2, rest2) => some (t2, t :: rest2)

/-- api/threats.py resolve_threat (in-memory fallback branch). -/
def resolve_threat (tid : Nat) (now : Nat) (db : List ThreatEvent) :
    Option (List ThreatEvent) :=
  (resolveFirst tid now db).map (fun p => add_threat p.1 p.2)

/-- Python min on two floats (modelled on ℚ). -/
def ratMin (a b : ℚ) : ℚ := if a ≤ b then a else b

/-- Python max on two floats (modelled on ℚ). -/
def ratMax (a b : ℚ) : ℚ := if a ≤ b then b else a

/-- ml_service.py MLService.detect_anomaly fallback table
(`severity_scores.get(threat.severity.value, 0.5)`); the 0.5 default entry is
unreachable because the enum's value is always one of the four keys. -/
def fallback_severity_score (s : ThreatSeverity) : ℚ :=
  match s with
  | .low => 3/10
  | .medium => 6/10
  | .high => 85/100
  | .critical => 95/100

/-- The trained isolation-forest model as an oracle: `none` models
`not self.initialized or not self.model` (mock mode); `some f` with
`f t = .error e` models the model call raising inside the try block;
`.ok d` is the decision-function value the code shifts into [0,1]. -/
abbrev MLModel := Option (ThreatEvent → Except String ℚ)

/-- ml_service.py MLService.detect_anomaly: mock mode returns the severity
table; otherwise `max(0.0, min(1.0, decision_score + 0.5))`; any exception in
the model path returns the neutral 0.5. -/
def detect_anomaly (model : MLModel) (t : ThreatEvent) : ℚ :=
  match model with
  | none => fallback_severity_score t.severity
  | some f =>
    match f t with
    | .ok d => ratMax 0 (ratMin 1 (d + 1/2))
    | .error _ => 1/2

/-- rl_service.py RLService._decide_with_rules: the rule-based policy used
whenever no trained agent is loaded (USE_RL_AGENT unset is the default).
Python `if threat.ml_score:` is truthy, so a present score of exactly 0 skips
the boost (numerically identical to boosting by 0). -/
def decide_with_rules (t : ThreatEvent) (freshId : Nat) : RemediationAction :=
  let base : ActionType × RiskLevel × ℚ :=
    if t.severity = .critical then
      if t.threat_type = .reverse_shell then (.terminate_pod, .high, 9/10)
      else (.isolate_pod, .medium, 8/10)
    else if t.severity = .high then
      if t.threat_type = .reverse_shell ∨ t.threat_type = .container_escape then
        (.isolate_pod, .medium, 75/100)
      else (.alert, .low, 7/10)
    else if t.severity = .medium then (.alert, .low, 6/10)
    else (.log, .low, 1/2)
  let confidence :=
    match t.ml_score with
    | some m => if m = 0 then base.2.2 else ratMin 1 (base.2.2 + m * (2/10))
    | none => base.2.2
  { id := freshId
    threat_id := t.id
    action_type := base.1
    risk_level := base.2.1
    confidence := confidence
    ml_score := t.ml_score
    executed := false
    executed_at := none
    success := none
    error_message := none
    requires_confirmation := decide (base.2.1 = .medium ∨ base.2.1 = .high) }

/-- The Kubernetes orchestrator as an oracle.  `initialized = false` models
`config.load_kube_config()` having failed at start-up (simulated mode; the
code checks `not self.initialized or not self.k8s_client`, set together).
The two operations return `.ok` or model the client call raising. -/
structure Orchestrator where
  initialized : Bool
  deletePod : Option String → String → Except String Unit
  createPolicy : Option String → String → Except String Unit

/-- remediation_service.py RemediationService._terminate_pod: simulated mode
returns True; otherwise delete_namespaced_pod with grace period 0, any
exception caught and logged, returning False (no error message recorded). -/
def terminate_pod (orch : Orchestrator) (pod : Option String) (ns : String) : Bool :=
  if !orch.initialized then true
  else
    match orch.deletePod pod ns with
    | .ok _ => true
    | .error _ => false

/-- remediation_service.py RemediationService._isolate_pod: simulated mode
returns True; otherwise create_namespaced_network_policy (empty ingress and
egress rule lists), any exception caught, returning False. -/
def isolate_pod (orch : Orchestrator) (pod : Option String) (ns : String) : Bool :=
  if !orch.initialized then true
  else
    match orch.createPolicy pod ns with
    | .ok _ => true
    | .error _ => false

/-- remediation_service.py RemediationService._send_alert: prints and returns
True. -/
def send_alert (_t : ThreatEvent) : Bool := true

/-- remediation_service.py RemediationService._log_event: logs and returns
True. -/
def log_event (_t : ThreatEvent) : Bool := true

/-- The if/elif dispatch chain inside execute_action: chooses the helper by
`action.action_type.value` (the final else covers MONITOR and the reserved
types: "Monitor action always succeeds"). -/
def dispatchSuccess (orch : Orchestrator) (action : RemediationAction)
    (threat : ThreatEvent) : Bool :=
  if action.action_type = .terminate_pod then
    terminate_pod orch threat.source_pod (pyOrD threat.source_namespace "default")
  else if action.action_type = .isolate_pod then
    isolate_pod orch threat.source_pod (pyOrD threat.source_namespace "default")
  else if action.action_type = .alert then send_alert threat
  else if action.action_type = .log then log_event threat
  else true

/-- remediation_service.py RemediationService.execute_action.  Sets
executed_at first; the confirmation branch returns early (executed False,
success None) WITHOUT appending to actions_db; otherwise dispatches on
action_type, sets executed/success and appends via actions_db.append.  The
enclosing `except` (executed True, success False, error_message set, no
append) is unreachable here: the dispatch helpers catch every orchestrator
exception themselves and no other modelled statement raises. -/
def execute_action (orch : Orchestrator) (action : RemediationAction)
    (threat : ThreatEvent) (now : Nat) (st : PipelineState) :
    RemediationAction × PipelineState :=
  let action := { action with executed_at := some now }
  if action.requires_confirmation then
    ({ action with executed := false, success := none }, st)
  else
    let success := dispatchSuccess orch action threat
    let action := { action with executed := true, success := some success }
    (action, { st with actions := add_action action st.actions })

/-- JSON body returned by the webhook handler.  The 500 branch (uncaught
exception) is unreachable for the modelled inputs. -/
inductive WebhookResponse
  | processed (threat_id : Nat) (severity : ThreatSeverity) (action : ActionType)
  | processedNull
  deriving DecidableEq, Repr

/-- main.py falco_webhook: process_event, then (when a threat was produced)
ml_service.detect_anomaly whose score is written onto the stored threat
object in place, rl_service.decide_action (rule-based policy), and
remediation_service.execute_action gated on
`action.confidence > 0.85 and action.risk_level == "low"`; the medium/high
branch only logs.  Responds processed with the threat id, severity and the
action type; an envelope the processor dropped yields threat None. -/
def falco_webhook (model : MLModel) (orch : Orchestrator) (event : FalcoEvent)
    (tid aid now : Nat) (st : PipelineState) : WebhookResponse × PipelineState :=
  match process_event event tid now st with
  | (some threat, st1) =>
    let ml := detect_anomaly model threat
    let threat := { threat with ml_score := some ml }
    -- the mutation above aliases the record appended by process_event
    let st1 := { st1 with
      threats := st1.threats.map (fun u => if u.id = threat.id then threat else u) }
    let action := decide_with_rules threat aid
    let st2 :=
      if 85/100 < action.confidence ∧ action.risk_level = RiskLevel.low then
        (execute_action orch action threat now st1).2
      else st1
    (.processed threat.id threat.severity action.action_type, st2)
  | (none, st1) => (.processedNull, st1)

/-! Concrete inputs used by the per-claim counterexamples and witnesses. -/

/-- An orchestrator that is unavailable: simulated mode. -/
def simOrch : Orchestrator :=
  { initialized := false
    deletePod := fun _ _ => .ok ()
    createPolicy := fun _ _ => .ok () }

/-- An orchestrator whose client calls raise (mirrors the unit test that sets
`delete_namespaced_pod.side_effect = Exception("K8s error")`). -/
def raisingOrch : Orchestrator :=
  { initialized := true
    deletePod := fun _ _ => .error "K8s error"
    createPolicy := fun _ _ => .error "K8s error" }

/-- The S4 envelope: the empty mapping. -/
def emptyEnvelope : FalcoEvent :=
  { output := none, priority := none, rule := none, output_fields := none }

/-- The S1 envelope (priority Critical, reverse-shell output, evil-pod). -/
def s1Envelope : FalcoEvent :=
  { output := some "Reverse shell spawned with nc -e /bin/sh by attacker"
    priority := some "Critical"
    rule := some "Reverse shell detected"
    output_fields := some [("k8s.pod.name", "evil-pod"), ("k8s.ns.name", "default")] }

/-- The S2 envelope (priority Warning, output mentioning a port scan). -/
def s2Envelope : FalcoEvent :=
  { output := some "Possible port scan targeting pod network"
    priority := some "Warning"
    rule := some "Port scan detected"
    output_fields := some [("k8s.pod.name", "scanner-target")] }

/-- The action the rule-based policy decides for the S1 envelope inside the
webhook (mock-mode scorer). -/
def s1Decided : Option RemediationAction :=
  (process_event s1Envelope 1 0 initialState).1.map
    (fun t => decide_with_rules { t with ml_score := some (detect_anomaly none t) } 2)

/-- The action the rule-based policy decides for the S2 envelope inside the
webhook (mock-mode scorer). -/
def s2Decided : Option RemediationAction :=
  (process_event s2Envelope 1 0 initialState).1.map
    (fun t => decide_with_rules { t with ml_score := some (detect_anomaly none t) } 2)

/-- A threat for the actuator failure scenario (mirrors the unit test
test_execute_action_k8s_failure). -/
def k8sFailThreat : ThreatEvent :=
  { id := 1
    detected_at := 0
    severity := .high
    threat_type := .reverse_shell
    source_pod := some "test-pod"
    source_namespace := some "default"
    source_container := none
    source_user := none
    description := ""
    falco_output := ""
    falco_rule := none
    falco_priority := none
    ml_score := none
    confidence := 7/10
    resolved := false
    resolved_at := none }

/-- A TERMINATE_POD action not requiring confirmation (mirrors the unit test
test_execute_action_k8s_failure). -/
def k8sFailAction : RemediationAction :=
  { id := 2
    threat_id := 1
    action_type := .terminate_pod
    risk_level := .low
    confidence := 9/10
    ml_score := none
    executed := false
    executed_at := none
    success := none
    error_message := none
    requires_confirmation := false }

/-- A second copy of the failing TERMINATE_POD action for the field-invariant
claim. -/
def c6Action : RemediationAction :=
  { k8sFailAction with id := 3 }

/-- The model oracle whose scoring raises. -/
def raisingScore : ThreatEvent → Except String ℚ :=
  fun _ => .error "Model error"

/-- A HIGH-severity threat for the scorer claims. -/
def c9Threat : ThreatEvent :=
  { k8sFailThreat with id := 9, threat_type := .unknown }

/-- A threat stored once, used for the duplicate-on-re-add counterexample. -/
def c7Threat : ThreatEvent :=
  { k8sFailThreat with id := 7, severity := .medium }

/-- An envelope used to instantiate the webhook gating theorem: its decided
action has risk MEDIUM, so the gate must refuse execution. -/
def c10Envelope : FalcoEvent :=
  { output := some "nc -e /bin/sh", priority := some "Critical", rule := none,
    output_fields := none }

/-- The threat process_event produces for c10Envelope (fresh id 1, instant 0). -/
def c10Threat : ThreatEvent :=
  { id := 1
    detected_at := 0
    severity := .high
    threat_type := .reverse_shell
    source_pod := none
    source_namespace := some "default"
    source_container := none
    source_user := none
    description := "nc -e /bin/sh"
    falco_output := "nc -e /bin/sh"
    falco_rule := some "Unknown"
    falco_priority := some "Critical"
    ml_score := none
    confidence := 7/10
    resolved := false
    resolved_at := none }

/-- An envelope whose text matches both reverse-shell and
privilege-escalation keywords. -/
def c8Envelope : FalcoEvent :=
  { output := some "sudo spawned /bin/sh in container"
    priority := some "Warning"
    rule := some "Terminal shell"
    output_fields := none }

/-- The threat process_event produces for the empty envelope, parametric in
the minted id and instant. -/
def emptyThreatAt (tid now : Nat) : ThreatEvent :=
  { id := tid
    detected_at := now
    severity := .low
    threat_type := .unknown
    source_pod := none
    source_namespace := some "default"
    source_container := none
    source_user := none
    description := ""
    falco_output := ""
    falco_rule := some "Unknown"
    falco_priority := some "Informational"
    ml_score := none
    confidence := 7/10
    resolved := false
    resolved_at := none }

/-- The threat process_event produces for s1Envelope (fresh id 1, instant 0). -/
def s1Threat : ThreatEvent :=
  { id := 1
    detected_at := 0
    severity := .high
    threat_type := .reverse_shell
    source_pod := some "evil-pod"
    source_namespace := some "default"
    source_container := none
    source_user := none
    description := "Reverse shell spawned with nc -e /bin/sh by attacker"
    falco_output := "Reverse shell spawned with nc -e /bin/sh by attacker"
    falco_rule := some "Reverse shell detected"
    falco_priority := some "Critical"
    ml_score := none
    confidence := 7/10
    resolved := false
    resolved_at := none }

/-- The threat process_event produces for s2Envelope (fresh id 1, instant 0). -/
def s2Threat : ThreatEvent :=
  { id := 1
    detected_at := 0
    severity := .medium
    threat_type := .network_anomaly
    source_pod := some "scanner-target"
    source_namespace := some "default"
    source_container := none
    source_user := none
    description := "Possible port scan targeting pod network"
    falco_output := "Possible port scan targeting pod network"
    falco_rule := some "Port scan detected"
    falco_priority := some "Warning"
    ml_score := none
    confidence := 7/10
    resolved := false
    resolved_at := none }

/-- The decision table of §4.4 of the spec, written from the spec's words for
the refinement comparison with the code's `decide_with_rules`:
(action type, risk, base confidence) per severity and threat type. -/
def specDecisionTable (sev : ThreatSeverity) (ty : ThreatType) :
    ActionType × RiskLevel × ℚ :=
  match sev, ty with
  | .critical, .reverse_shell => (.terminate_pod, .high, 9/10)
  | .critical, _ => (.isolate_pod, .medium, 8/10)
  | .high, .reverse_shell => (.isolate_pod, .medium, 75/100)
  | .high, .container_escape => (.isolate_pod, .medium, 75/100)
  | .high, _ => (.alert, .low, 7/10)
  | .medium, _ => (.alert, .low, 6/10)
  | .low, _ => (.log, .low, 1/2)

/-- Does the combined text contain one of the keywords THREAT_KEYWORDS lists
for the given type? -/
def keywordHit (combined : String) (ty : ThreatType) : Bool :=
  THREAT_KEYWORDS.any
    (fun p => p.1 == ty && p.2.any (fun kw => strContains combined kw))

/-! Shared helper lemmas. -/

theorem ratMin_le_left (a b : ℚ) : ratMin a b ≤ a := by
  by_cases h : a ≤ b <;> simp [ratMin, h]
  exact le_of_not_le h

theorem ratMin_nonneg (a b : ℚ) (ha : 0 ≤ a) (hb : 0 ≤ b) : 0 ≤ ratMin a b := by
  by_cases h : a ≤ b <;> simp [ratMin, h, ha, hb]

theorem ratMax_le (a b c : ℚ) (ha : a ≤ c) (hb : b ≤ c) : ratMax a b ≤ c := by
  by_cases h : a ≤ b <;> simp [ratMax, h, ha, hb]

theorem le_ratMax_left (a b : ℚ) : a ≤ ratMax a b := by
  by_cases h : a ≤ b <;> simp [ratMax, h]

/-- process_event never touches the actions list. -/
theorem process_event_actions (ev : FalcoEvent) (tid now : Nat) (st : PipelineState) :
    (process_event ev tid now st).2.actions = st.actions := rfl

/-- process_event always yields the built threat. -/
theorem process_event_fst (ev : FalcoEvent) (tid now : Nat) (st : PipelineState) :
    (process_event ev tid now st).1 = some (buildThreat ev tid now) := rfl

/-- process_event appends exactly the produced threat to the store. -/
theorem process_event_threats (ev : FalcoEvent) (tid now : Nat) (st : PipelineState)
    (t : ThreatEvent) (h : (process_event ev tid now st).1 = some t) :
    (process_event ev tid now st).2.threats = st.threats ++ [t] := by
  rw [process_event_fst] at h
  injection h with h
  subst h
  rfl

/-- Unfolds falco_webhook once a threat is known to be produced. -/
theorem falco_webhook_unfold (model : MLModel) (orch : Orchestrator) (ev : FalcoEvent)
    (tid aid now : Nat) (st : PipelineState) (threat : ThreatEvent)
    (h : (process_event ev tid now st).1 = some threat) :
    falco_webhook model orch ev tid aid now st =
      (let st1 := (process_event ev tid now st).2
       let threat2 := { threat with ml_score := some (detect_anomaly model threat) }
       let st1b := { st1 with
         threats := st1.threats.map (fun u => if u.id = threat2.id then threat2 else u) }
       let action := decide_with_rules threat2 aid
       (WebhookResponse.processed threat2.id threat2.severity action.action_type,
         if 85/100 < action.confidence ∧ action.risk_level = RiskLevel.low then
           (execute_action orch action threat2 now st1b).2
         else st1b)) := by
  have h2 : process_event ev tid now st = (some threat, (process_event ev tid now st).2) := by
    conv_lhs =>
      rw [show process_event ev tid now st =
        ((process_event ev tid now st).1, (process_event ev tid now st).2) from rfl]
    rw [h]
  rw [falco_webhook, h2]

/-- The confirmation branch of execute_action: fields reset, store untouched. -/
theorem execute_action_confirmed (orch : Orchestrator) (action : RemediationAction)
    (threat : ThreatEvent) (now : Nat) (st : PipelineState)
    (h : action.requires_confirmation = true) :
    execute_action orch action threat now st =
      ({ action with executed_at := some now, executed := false, success := none }, st) := by
  simp [execute_action, h]

/-- The dispatch branch of execute_action: executed set, outcome recorded,
action appended to the store. -/
theorem execute_action_not_confirmed (orch : Orchestrator) (action : RemediationAction)
    (threat : ThreatEvent) (now : Nat) (st : PipelineState)
    (h : action.requires_confirmation = false) :
    execute_action orch action threat now st =
      (let a := { action with
          executed_at := some now
          executed := true
          success := some (dispatchSuccess orch action threat) }
       (a, { st with actions := st.actions ++ [a] })) := by
  simp only [execute_action, h, add_action]
  rfl

/-- The rule-based decider realizes the base table of the spec. -/
theorem decide_with_rules_base (t : ThreatEvent) (aid : Nat) :
    (decide_with_rules t aid).action_type = (specDecisionTable t.severity t.threat_type).1 ∧
    (decide_with_rules t aid).risk_level = (specDecisionTable t.severity t.threat_type).2.1 := by
  obtain ⟨i, d, sev, ty, p1, p2, p3, p4, ds, fo, fr, fp, ml, cf, rs, ra⟩ := t
  cases sev <;> cases ty <;> simp [decide_with_rules, specDecisionTable]

/-- The decider's confidence in terms of the base table and the ML boost. -/
theorem decide_with_rules_confidence (t : ThreatEvent) (aid : Nat) :
    (decide_with_rules t aid).confidence =
      (match t.ml_score with
       | none => (specDecisionTable t.severity t.threat_type).2.2
       | some m => ratMin 1 ((specDecisionTable t.severity t.threat_type).2.2 + m * (2/10))) := by
  obtain ⟨i, d, sev, ty, p1, p2, p3, p4, ds, fo, fr, fp, ml, cf, rs, ra⟩ := t
  cases ml with
  | none => cases sev <;> cases ty <;> simp [decide_with_rules, specDecisionTable]
  | some m =>
    by_cases h0 : m = 0 <;>
      cases sev <;> cases ty <;>
        simp [decide_with_rules, specDecisionTable, h0, ratMin] <;> norm_num

/-- The decider's confidence never exceeds 1. -/
theorem decide_with_rules_confidence_le_one (t : ThreatEvent) (aid : Nat) :
    (decide_with_rules t aid).confidence ≤ 1 := by
  obtain ⟨i, d, sev, ty, p1, p2, p3, p4, ds, fo, fr, fp, ml, cf, rs, ra⟩ := t
  cases ml with
  | none => cases sev <;> cases ty <;> simp [decide_with_rules] <;> norm_num
  | some m =>
    by_cases h0 : m = 0
    · cases sev <;> cases ty <;> simp [decide_with_rules, h0] <;> norm_num
    · cases sev <;> cases ty <;>
        simp only [decide_with_rules, h0, if_false, ite_false] <;>
          exact le_trans (ratMin_le_left _ _) (by norm_num)

/-- The decider's confirmation flag tracks the risk level. -/
theorem decide_with_rules_confirmation (t : ThreatEvent) (aid : Nat) :
    (decide_with_rules t aid).requires_confirmation = true ↔
      ((decide_with_rules t aid).risk_level = RiskLevel.medium ∨
        (decide_with_rules t aid).risk_level = RiskLevel.high) := by
  obtain ⟨i, d, sev, ty, p1, p2, p3, p4, ds, fo, fr, fp, ml, cf, rs, ra⟩ := t
  cases sev <;> cases ty <;> simp [decide_with_rules]

/-! Claim theorems. -/

/-- C5: for every Threat the rule-based Decider returns exactly the tabled
action and risk; the confidence is the tabled base, boosted to
min(1, base + 0.2·ml_score) when ml_score is present; requires_confirmation
holds exactly for MEDIUM and HIGH risk; and the confidence never exceeds 1. -/
theorem C5_decider_table (t : ThreatEvent) (aid : Nat) :
    (decide_with_rules t aid).action_type = (specDecisionTable t.severity t.threat_type).1 ∧
    (decide_with_rules t aid).risk_level = (specDecisionTable t.severity t.threat_type).2.1 ∧
    ((decide_with_rules t aid).confidence =
      (match t.ml_score with
       | none => (specDecisionTable t.severity t.threat_type).2.2
       | some m => ratMin 1 ((specDecisionTable t.severity t.threat_type).2.2 + m * (2/10)))) ∧
    ((decide_with_rules t aid).requires_confirmation = true ↔
      ((decide_with_rules t aid).risk_level = RiskLevel.medium ∨
        (decide_with_rules t aid).risk_level = RiskLevel.high)) ∧
    (decide_with_rules t aid).confidence ≤ 1 :=
  ⟨(decide_with_rules_base t aid).1, (decide_with_rules_base t aid).2,
    decide_with_rules_confidence t aid, decide_with_rules_confirmation t aid,
    decide_with_rules_confidence_le_one t aid⟩

/-- C3: evaluation at the failing input.  When the orchestrator's delete call
raises, the exception is caught inside _terminate_pod (which returns False),
so the persisted Action carries success = false but NO error_message —
contrary to the claim and to the repo's own unit test, which expects
error_message = "K8s error" on this path; and the confirmation-pending branch
does not persist the Action at all. -/
theorem C3_actuator_persistence_eval :
    ((execute_action raisingOrch k8sFailAction k8sFailThreat 5 initialState).1.executed = true) ∧
    ((execute_action raisingOrch k8sFailAction k8sFailThreat 5 initialState).1.success = some false) ∧
    ((execute_action raisingOrch k8sFailAction k8sFailThreat 5 initialState).1.error_message = none) ∧
    ((execute_action raisingOrch k8sFailAction k8sFailThreat 5 initialState).2.actions.length = 1) ∧
    ((execute_action raisingOrch { k8sFailAction with requires_confirmation := true }
        k8sFailThreat 5 initialState).2.actions.length = 0) := by
  decide

/-- C6: evaluation at the failing input.  With requires_confirmation = false
and the orchestrator call raising, the Action ends executed = true with
success = false but error_message = none, refuting "error_message is set iff
success = false"; the confirmation branch does end with executed = false and
success = unknown. -/
theorem C6_actuator_fields_eval :
    ((execute_action raisingOrch c6Action k8sFailThreat 5 initialState).1.executed = true) ∧
    ((execute_action raisingOrch c6Action k8sFailThreat 5 initialState).1.success = some false) ∧
    ((execute_action raisingOrch c6Action k8sFailThreat 5 initialState).1.error_message = none) ∧
    ((execute_action simOrch { c6Action with requires_confirmation := true }
        k8sFailThreat 5 initialState).1.executed = false) ∧
    ((execute_action simOrch { c6Action with requires_confirmation := true }
        k8sFailThreat 5 initialState).1.success = none) := by
  decide

/-- C7: counterexample.  add_threat is a plain append in the in-memory
backing: adding a threat whose id is already present leaves two records with
that id, and resolve_threat re-adds the mutated record, so the listed
snapshot holds the id twice. -/
theorem C7_add_threat_duplicate_counterexample :
    ((add_threat c7Threat (add_threat c7Threat [])).countP (fun u => u.id == 7) = 2) ∧
    ((resolve_threat 7 9 [c7Threat]).map
        (fun db => db.countP (fun u => u.id == 7)) = some 2) := by
  decide

/-- C7 amended: add_threat appends unconditionally, so an add with an
already-present id raises the count for that id by one; resolving a store
holding the id once yields a store holding it twice, both copies resolved. -/
theorem C7_add_threat_append_semantics (t : ThreatEvent) (db : List ThreatEvent) (now : Nat) :
    ((add_threat t db).countP (fun u => u.id == t.id) =
      db.countP (fun u => u.id == t.id) + 1) ∧
    ((resolve_threat t.id now [t]).map
        (fun db2 => (db2.countP (fun u => u.id == t.id), db2.all (fun u => u.resolved))) =
      some (2, true)) := by
  constructor
  · simp [add_threat, List.countP_append, List.countP_cons]
  · simp [resolve_threat, resolveFirst, add_threat, List.countP_cons, List.all]

/-- C9: counterexample.  When the model's scoring raises, detect_anomaly
returns the constant neutral 0.5, not the per-severity fallback (0.85 for a
HIGH threat). -/
theorem C9_scorer_raise_counterexample :
    detect_anomaly (some raisingScore) c9Threat = 1/2 ∧
    fallback_severity_score c9Threat.severity = 85/100 ∧
    ((1:ℚ)/2 ≠ 85/100) :=
  ⟨rfl, rfl, by norm_num⟩

/-- C9 amended: the Scorer's result is in [0,1] for every input; the
per-severity fallback table is used exactly when the model is unavailable;
when the model's scoring raises the result is the constant 0.5. -/
theorem C9_scorer_bounds_and_fallback (model : MLModel) (t : ThreatEvent) :
    0 ≤ detect_anomaly model t ∧ detect_anomaly model t ≤ 1 ∧
    detect_anomaly none t = fallback_severity_score t.severity ∧
    (∀ f e, model = some f → f t = Except.error e → detect_anomaly model t = 1/2) := by
  refine ⟨?_, ?_, rfl, ?_⟩
  · cases model with
    | none => cases h : t.severity <;> simp [detect_anomaly, fallback_severity_score, h] <;> norm_num
    | some f =>
      cases hf : f t with
      | ok d => simp only [detect_anomaly, hf]; exact le_ratMax_left 0 _
      | error e => simp [detect_anomaly, hf]
  · cases model with
    | none => cases h : t.severity <;> simp [detect_anomaly, fallback_severity_score, h] <;> norm_num
    | some f =>
      cases hf : f t with
      | ok d =>
        simp only [detect_anomaly, hf]
        exact ratMax_le 0 _ 1 (by norm_num) (le_trans (ratMin_le_left _ _) (le_refl 1))
      | error e => simp [detect_anomaly, hf]; norm_num
  · intro f e hm hfe
    subst hm
    simp [detect_anomaly, hfe]

/-- C9 witness: the amended theorem applied to the raising model and the HIGH
threat. -/
theorem C9_scorer_bounds_and_fallback_witness :
    detect_anomaly (some raisingScore) c9Threat = 1/2 :=
  (C9_scorer_bounds_and_fallback (some raisingScore) c9Threat).2.2.2
    raisingScore "Model error" rfl rfl

/-- C1: counterexample.  The empty envelope (missing both output and
priority) is NOT dropped: process_event defaults output to "" and priority to
"Informational", produces a LOW / UNKNOWN threat, persists it and broadcasts;
the webhook answers processed with the threat id instead of threat: null. -/
theorem C1_empty_envelope_counterexample :
    ((process_event emptyEnvelope 1 0 initialState).1.map
        (fun t => (t.severity, t.threat_type)) =
      some (ThreatSeverity.low, ThreatType.unknown)) ∧
    ((falco_webhook none simOrch emptyEnvelope 1 2 0 initialState).1 ≠
      WebhookResponse.processedNull) ∧
    ((falco_webhook none simOrch emptyEnvelope 1 2 0 initialState).2.threats.length = 1) ∧
    ((falco_webhook none simOrch emptyEnvelope 1 2 0 initialState).2.broadcasts.length = 1) := by
  refine ⟨by decide, by decide, ?_, ?_⟩ <;>
    rw [falco_webhook_unfold none simOrch emptyEnvelope 1 2 0 initialState
      (emptyThreatAt 1 0) rfl] <;>
    simp [decide_with_rules, emptyThreatAt, detect_anomaly, fallback_severity_score,
      ratMin, process_event, buildThreat, emptyEnvelope, add_threat, initialState] <;>
    norm_num

/-- C1 amended: an envelope missing both output and priority is not dropped;
the defaults produce a LOW / UNKNOWN threat that is appended to the store and
broadcast once, and the webhook responds processed with the threat id and a
LOG action. -/
theorem C1_empty_envelope_processed (model : MLModel) (orch : Orchestrator)
    (tid aid now : Nat) (st : PipelineState) :
    ((process_event emptyEnvelope tid now st).1 = some (emptyThreatAt tid now)) ∧
    ((emptyThreatAt tid now).severity = ThreatSeverity.low ∧
      (emptyThreatAt tid now).threat_type = ThreatType.unknown ∧
      (emptyThreatAt tid now).falco_priority = some "Informational") ∧
    ((process_event emptyEnvelope tid now st).2.threats =
      st.threats ++ [emptyThreatAt tid now]) ∧
    ((process_event emptyEnvelope tid now st).2.broadcasts =
      st.broadcasts ++ [buildBroadcast (emptyThreatAt tid now)]) ∧
    ((falco_webhook model orch emptyEnvelope tid aid now st).1 =
      WebhookResponse.processed tid ThreatSeverity.low ActionType.log) := by
  refine ⟨rfl, ⟨rfl, rfl, rfl⟩, rfl, rfl, ?_⟩
  rw [falco_webhook_unfold model orch emptyEnvelope tid aid now st
    (emptyThreatAt tid now) rfl]
  simp [decide_with_rules, emptyThreatAt]

/-- C2: counterexample.  The S2 envelope decides ALERT / LOW with
requires_confirmation = false, yet the webhook does not invoke the Actuator
(the confidence 0.72 fails the > 0.85 gate): no Action is appended to the
store, so no Action ends executed. -/
theorem C2_s2_not_executed_counterexample :
    (s2Decided.map (fun a =>
        (a.requires_confirmation, a.action_type, a.risk_level, a.confidence)) =
      some (false, ActionType.alert, RiskLevel.low, 72/100)) ∧
    ((falco_webhook none simOrch s2Envelope 1 2 0 initialState).2.actions = []) := by
  constructor
  · rw [show s2Decided = some (decide_with_rules
      { s2Threat with ml_score := some (detect_anomaly none s2Threat) } 2) from rfl]
    simp [decide_with_rules, s2Threat, detect_anomaly, fallback_severity_score, ratMin]
    norm_num
  · rw [falco_webhook_unfold none simOrch s2Envelope 1 2 0 initialState s2Threat rfl]
    simp [decide_with_rules, s2Threat, detect_anomaly, fallback_severity_score, ratMin]
    norm_num
    rfl

/-- C2 amended: the webhook invokes the Actuator only when the decided action
has risk LOW and confidence > 0.85.  The S2 envelope decides ALERT / LOW with
confidence 0.72, which fails the gate, so the action is neither executed nor
persisted (executed stays false) while the webhook still answers processed
with the alert action type. -/
theorem C2_gate_blocks_s2 :
    (s2Decided.map (fun a => (a.action_type, a.risk_level, a.confidence, a.executed)) =
      some (ActionType.alert, RiskLevel.low, 72/100, false)) ∧
    (¬ ((85:ℚ)/100 < 72/100)) ∧
    ((falco_webhook none simOrch s2Envelope 1 2 0 initialState).1 =
      WebhookResponse.processed 1 ThreatSeverity.medium ActionType.alert) ∧
    ((falco_webhook none simOrch s2Envelope 1 2 0 initialState).2.actions = []) := by
  refine ⟨?_, by norm_num, ?_, ?_⟩
  · rw [show s2Decided = some (decide_with_rules
      { s2Threat with ml_score := some (detect_anomaly none s2Threat) } 2) from rfl]
    simp [decide_with_rules, s2Threat, detect_anomaly, fallback_severity_score, ratMin]
    norm_num
  · rw [falco_webhook_unfold none simOrch s2Envelope 1 2 0 initialState s2Threat rfl]
    simp [decide_with_rules, s2Threat]
  · rw [falco_webhook_unfold none simOrch s2Envelope 1 2 0 initialState s2Threat rfl]
    simp [decide_with_rules, s2Threat, detect_anomaly, fallback_severity_score, ratMin]
    norm_num
    rfl

/-- C4: counterexample.  The S1 envelope maps to severity HIGH (priority
Critical), and for HIGH with REVERSE_SHELL the decider returns ISOLATE_POD at
risk MEDIUM, not TERMINATE_POD at risk HIGH. -/
theorem C4_s1_action_counterexample :
    (s1Decided.map (fun a => (a.action_type, a.risk_level)) =
      some (ActionType.isolate_pod, RiskLevel.medium)) ∧
    (s1Decided.map (fun a => a.action_type) ≠ some ActionType.terminate_pod) := by
  constructor <;> decide

/-- C4 amended: the S1 envelope yields a Threat with severity HIGH and type
REVERSE_SHELL, and an Action ISOLATE_POD at risk MEDIUM with
requires_confirmation = true; the webhook does not execute it (executed stays
false, nothing is persisted to the actions store). -/
theorem C4_s1_pipeline_outcome :
    ((process_event s1Envelope 1 0 initialState).1.map
        (fun t => (t.severity, t.threat_type)) =
      some (ThreatSeverity.high, ThreatType.reverse_shell)) ∧
    (s1Decided.map (fun a => (a.action_type, a.risk_level, a.requires_confirmation, a.executed)) =
      some (ActionType.isolate_pod, RiskLevel.medium, true, false)) ∧
    ((falco_webhook none simOrch s1Envelope 1 2 0 initialState).2.actions = []) := by
  refine ⟨by decide, by decide, ?_⟩
  rw [falco_webhook_unfold none simOrch s1Envelope 1 2 0 initialState s1Threat rfl]
  simp [decide_with_rules, s1Threat, detect_anomaly, fallback_severity_score, ratMin]
  rfl

/-- C8: threat-type detection is a first-match substring search over
output ++ " " ++ rule in the declaration order of THREAT_KEYWORDS: a
reverse-shell keyword hit decides REVERSE_SHELL regardless of any other hit,
no hit at all yields UNKNOWN, and process_event classifies with exactly this
search applied to the lowered output and rule. -/
theorem C8_detection_first_match (output rule : String) :
    (keywordHit (output ++ " " ++ rule) ThreatType.reverse_shell = true →
       detectThreatType output rule = ThreatType.reverse_shell) ∧
    ((∀ ty, keywordHit (output ++ " " ++ rule) ty = false) →
       detectThreatType output rule = ThreatType.unknown) ∧
    (∀ ev tid now st t, ev.output = some output → ev.rule = some rule →
       (process_event ev tid now st).1 = some t →
       t.threat_type = detectThreatType (strLower output) (strLower rule)) := by
  refine ⟨?_, ?_, ?_⟩
  · intro h
    simp [keywordHit, THREAT_KEYWORDS] at h
    simp [detectThreatType, firstKeywordMatch, THREAT_KEYWORDS, h]
  · intro h
    have h1 := h ThreatType.reverse_shell
    have h2 := h ThreatType.privilege_escalation
    have h3 := h ThreatType.unauthorized_access
    have h4 := h ThreatType.malicious_process
    have h5 := h ThreatType.network_anomaly
    have h6 := h ThreatType.file_anomaly
    have h7 := h ThreatType.container_escape
    simp [keywordHit, THREAT_KEYWORDS] at h1 h2 h3 h4 h5 h6 h7
    simp [detectThreatType, firstKeywordMatch, THREAT_KEYWORDS, h1, h2, h3, h4, h5, h6, h7]
  · intro ev tid now st t h1 h2 h3
    rw [process_event_fst] at h3
    injection h3 with h3
    subst h3
    simp [buildThreat, h1, h2]

/-- C8 witness: a text matching both reverse-shell and privilege-escalation
keywords classifies as REVERSE_SHELL. -/
theorem C8_detection_first_match_witness :
    (keywordHit ("sudo spawned /bin/sh in container" ++ " " ++ "terminal shell")
        ThreatType.reverse_shell = true) ∧
    (keywordHit ("sudo spawned /bin/sh in container" ++ " " ++ "terminal shell")
        ThreatType.privilege_escalation = true) ∧
    detectThreatType "sudo spawned /bin/sh in container" "terminal shell" =
      ThreatType.reverse_shell :=
  ⟨by decide, by decide,
    (C8_detection_first_match "sudo spawned /bin/sh in container" "terminal shell").1
      (by decide)⟩

/-- C10: the webhook invokes the Actuator exactly when the decided action has
confidence > 0.85 and risk LOW.  In every other case the actions store is
untouched (nothing executed, nothing persisted) while the response still
reports processed with the decided action type; in the executing case exactly
one action is appended, executed, with a recorded outcome and the decided
action type. -/
theorem C10_webhook_gating (model : MLModel) (orch : Orchestrator) (ev : FalcoEvent)
    (tid aid now : Nat) (st : PipelineState) (threat : ThreatEvent)
    (h : (process_event ev tid now st).1 = some threat) :
    ((falco_webhook model orch ev tid aid now st).1 =
      WebhookResponse.processed threat.id threat.severity
        (decide_with_rules { threat with ml_score := some (detect_anomaly model threat) } aid).action_type) ∧
    (¬ (85/100 < (decide_with_rules { threat with ml_score := some (detect_anomaly model threat) } aid).confidence ∧
        (decide_with_rules { threat with ml_score := some (detect_anomaly model threat) } aid).risk_level = RiskLevel.low) →
      (falco_webhook model orch ev tid aid now st).2.actions = st.actions) ∧
    ((85/100 < (decide_with_rules { threat with ml_score := some (detect_anomaly model threat) } aid).confidence ∧
        (decide_with_rules { threat with ml_score := some (detect_anomaly model threat) } aid).risk_level = RiskLevel.low) →
      ∃ a, (falco_webhook model orch ev tid aid now st).2.actions = st.actions ++ [a] ∧
        a.executed = true ∧ a.success.isSome = true ∧
        a.action_type = (decide_with_rules { threat with ml_score := some (detect_anomaly model threat) } aid).action_type) := by
  have hq : falco_webhook model orch ev tid aid now st =
      (WebhookResponse.processed threat.id threat.severity
        (decide_with_rules { threat with ml_score := some (detect_anomaly model threat) } aid).action_type,
       if 85/100 < (decide_with_rules { threat with ml_score := some (detect_anomaly model threat) } aid).confidence ∧
           (decide_with_rules { threat with ml_score := some (detect_anomaly model threat) } aid).risk_level = RiskLevel.low then
         (execute_action orch
           (decide_with_rules { threat with ml_score := some (detect_anomaly model threat) } aid)
           { threat with ml_score := some (detect_anomaly model threat) } now
           { (process_event ev tid now st).2 with
             threats := (process_event ev tid now st).2.threats.map
               (fun u => if u.id = threat.id then
                 { threat with ml_score := some (detect_anomaly model threat) } else u) }).2
       else
         { (process_event ev tid now st).2 with
           threats := (process_event ev tid now st).2.threats.map
             (fun u => if u.id = threat.id then
               { threat with ml_score := some (detect_anomaly model threat) } else u) }) :=
    falco_webhook_unfold model orch ev tid aid now st threat h
  refine ⟨by rw [hq], ?_, ?_⟩
  · intro hn
    rw [hq]
    simp only [if_neg hn]
    exact process_event_actions ev tid now st
  · intro hg
    have hc : (decide_with_rules { threat with
        ml_score := some (detect_anomaly model threat) } aid).requires_confirmation = false := by
      cases hb : (decide_with_rules { threat with
          ml_score := some (detect_anomaly model threat) } aid).requires_confirmation with
      | false => rfl
      | true =>
        have hmh := (decide_with_rules_confirmation
          { threat with ml_score := some (detect_anomaly model threat) } aid).mp hb
        rw [hg.2] at hmh
        rcases hmh with h1 | h1 <;> exact absurd h1 (by decide)
    refine ⟨{ decide_with_rules { threat with
          ml_score := some (detect_anomaly model threat) } aid with
        executed_at := some now
        executed := true
        success := some (dispatchSuccess orch
          (decide_with_rules { threat with ml_score := some (detect_anomaly model threat) } aid)
          { threat with ml_score := some (detect_anomaly model threat) }) },
      ?_, rfl, rfl, rfl⟩
    rw [hq]
    simp only [if_pos hg]
    rw [execute_action_not_confirmed _ _ _ _ _ hc]
    rfl

/-- C10 witness: the gating theorem applied to an envelope whose decided
action has risk MEDIUM, so the Actuator is not invoked and the store stays
empty. -/
theorem C10_webhook_gating_witness :
    (falco_webhook none simOrch c10Envelope 1 2 0 initialState).2.actions = [] := by
  have h := (C10_webhook_gating none simOrch c10Envelope 1 2 0 initialState c10Threat rfl).2.1
  exact h (fun hg => absurd hg.2 (by decide))

end SentinelForge
